import Mathlib

/-!
# Shallow embedding of the AutiCare autism-screening pipeline

This file embeds the behavioural-signal pipeline of
`cv/AutiCare/autism_screening_model.py` in Lean 4 and settles the frozen
claims about it.

Modelling conventions:
* Python floats are modelled as `ℚ` (exact rationals); no claim here depends
  on binary floating-point rounding.
* The per-frame visual-detector output is reduced to the fields the pipeline
  actually reads: the two iris landmarks (indices 468 and 473), each carrying
  normalized `x`/`y` coordinates.  A frame with no detected face is `none`.
* `np.random.random()` / `np.random.uniform` draws are modelled as explicit
  input streams (`ℕ → ℚ` for the per-frame gesture draw, `ℕ → IrisObs` for
  the mock iris landmarks generated inside `calculate_response_latency`), so
  the randomized code becomes a deterministic function of the stream.
* Python exceptions become `Except String`.
* `sqrt d > 0.15` (with `d ≥ 0`) is implemented as `d² > 0.15²`; the
  equivalence with the real-valued square root is proved where the claim
  mentions Euclidean distance.
-/

namespace AutiCare

/-- The two iris landmarks (indices 468 and 473 of the face-landmark list)
read by the pipeline; all other mock landmarks are never inspected. -/
structure IrisObs where
  lx : ℚ
  ly : ℚ
  rx : ℚ
  ry : ℚ
deriving Repr, DecidableEq

/-- The landmarks read by `detect_gestures`: the `y` coordinates of the
index-finger tip (index 8) and the wrist (index 0). -/
structure HandObs where
  tip_y : ℚ
  wrist_y : ℚ
deriving Repr, DecidableEq

/-- `BehavioralMetrics` dataclass (values and per-metric baselines, with the
dataclass defaults). The three extra indicator fields are never read by the
claims and are omitted. -/
structure BehavioralMetrics where
  eye_contact_duration : ℚ := 0
  eye_contact_baseline : ℚ := 75
  attention_shifts : ℚ := 0
  attention_shifts_baseline : ℚ := 8
  gesture_frequency : ℚ := 0
  gesture_frequency_baseline : ℚ := 6
  social_gaze : ℚ := 0
  social_gaze_baseline : ℚ := 60
  response_latency : ℚ := 0
  response_latency_baseline : ℚ := 3/2
deriving Repr, DecidableEq

/-- Status tag emitted by `BehavioralMetrics.to_dict`. -/
inductive Status where
  | above_baseline
  | below_baseline
deriving Repr, DecidableEq

/-- One entry of the `objective_signals` dictionary.  The Python code formats
`value` and `baseline` into strings (`f"{v}%"` etc.); the numbers themselves
are kept here, the presentation-only formatting is dropped. -/
structure MetricEntry where
  value : ℚ
  baseline : ℚ
  status : Status
deriving Repr, DecidableEq

/-- The `objective_signals` section of `BehavioralMetrics.to_dict`. -/
structure ObjectiveSignals where
  eye_contact_duration : MetricEntry
  attention_shifts : MetricEntry
  gesture_frequency : MetricEntry
  social_gaze : MetricEntry
  response_latency : MetricEntry
deriving Repr, DecidableEq

/-- The `behavioral_indicators` section of `BehavioralMetrics.to_dict`. -/
structure BehavioralIndicators where
  eye_gaze_patterns : Bool
  social_engagement : Bool
  environmental_response : Bool
  repetitive_behaviors : Bool
  communication_patterns : Bool
deriving Repr, DecidableEq

/-- Result of `BehavioralMetrics.to_dict`. -/
structure MetricsDict where
  objective_signals : ObjectiveSignals
  behavioral_indicators : BehavioralIndicators
deriving Repr, DecidableEq

/-- `BehavioralMetrics.to_dict` (autism_screening_model.py lines 47-84). -/
def BehavioralMetrics.to_dict (m : BehavioralMetrics) : MetricsDict :=
  { objective_signals :=
      { eye_contact_duration :=
          { value := m.eye_contact_duration
            baseline := m.eye_contact_baseline
            status := if m.eye_contact_duration < m.eye_contact_baseline then
                Status.below_baseline else Status.above_baseline }
        attention_shifts :=
          { value := m.attention_shifts
            baseline := m.attention_shifts_baseline
            status := if m.attention_shifts > m.attention_shifts_baseline then
                Status.above_baseline else Status.below_baseline }
        gesture_frequency :=
          { value := m.gesture_frequency
            baseline := m.gesture_frequency_baseline
            status := if m.gesture_frequency < m.gesture_frequency_baseline then
                Status.below_baseline else Status.above_baseline }
        social_gaze :=
          { value := m.social_gaze
            baseline := m.social_gaze_baseline
            status := if m.social_gaze < m.social_gaze_baseline then
                Status.below_baseline else Status.above_baseline }
        response_latency :=
          { value := m.response_latency
            baseline := m.response_latency_baseline
            status := if m.response_latency > m.response_latency_baseline then
                Status.above_baseline else Status.below_baseline } }
    behavioral_indicators :=
      { eye_gaze_patterns := true
        social_engagement := true
        environmental_response := true
        repetitive_behaviors := true
        communication_patterns := true } }

/-- `BehavioralMetrics.calculate_risk_score` (lines 86-118): sequentially
accumulates the five risk factors, then classifies by `risk_percentage`. -/
def BehavioralMetrics.calculate_risk_score (m : BehavioralMetrics) : String × ℚ :=
  let risk_factors : ℕ := 0
  let risk_factors := if m.eye_contact_duration < m.eye_contact_baseline then
    risk_factors + 1 else risk_factors
  let risk_factors := if m.attention_shifts > m.attention_shifts_baseline * 1.3 then
    risk_factors + 1 else risk_factors
  let risk_factors := if m.gesture_frequency < m.gesture_frequency_baseline * 0.7 then
    risk_factors + 1 else risk_factors
  let risk_factors := if m.social_gaze < m.social_gaze_baseline then
    risk_factors + 1 else risk_factors
  let risk_factors := if m.response_latency > m.response_latency_baseline * 1.5 then
    risk_factors + 1 else risk_factors
  let total_factors : ℕ := 5
  let risk_percentage : ℚ := ((risk_factors : ℚ) / (total_factors : ℚ)) * 100
  if risk_percentage < 30 then ("Low Risk", 0.85)
  else if risk_percentage < 60 then ("Medium Risk", 0.75)
  else ("High Risk", 0.80)

/-- Number of true risk factors of a metrics value (spec-level recount of the
five conditions of `calculate_risk_score`, used to state C1). -/
def riskFactorCount (m : BehavioralMetrics) : ℕ :=
  [decide (m.eye_contact_duration < m.eye_contact_baseline),
   decide (m.attention_shifts > m.attention_shifts_baseline * 1.3),
   decide (m.gesture_frequency < m.gesture_frequency_baseline * 0.7),
   decide (m.social_gaze < m.social_gaze_baseline),
   decide (m.response_latency > m.response_latency_baseline * 1.5)].count true

/-- Gaze point of a face observation: the midpoint of the two iris
landmarks, exactly as computed in `detect_eye_contact` and `process_video`. -/
def gazeOf (o : IrisObs) : ℚ × ℚ :=
  ((o.lx + o.rx) / 2, (o.ly + o.ry) / 2)

/-- `AutismScreeningModel.detect_eye_contact` (lines 187-214): no landmarks
means `False`; otherwise the gaze midpoint must lie strictly inside the
axis-aligned box (0.4,0.6) × (0.3,0.7). -/
def detect_eye_contact (face_landmarks : Option IrisObs) : Bool :=
  match face_landmarks with
  | none => false
  | some o =>
    let gaze_x := (o.lx + o.rx) / 2
    let gaze_y := (o.ly + o.ry) / 2
    let is_centered_x := decide (0.4 < gaze_x) && decide (gaze_x < 0.6)
    let is_centered_y := decide (0.3 < gaze_y) && decide (gaze_y < 0.7)
    is_centered_x && is_centered_y

/-- `AutismScreeningModel.detect_attention_shift` (lines 216-234), with the
mutable `self.previous_gaze` made an explicit input/output.  The code tests
`sqrt(dx² + dy²) > 0.15`; since both sides are nonnegative this is embedded
as `dx² + dy² > 0.15²` (the equivalence with the real square root is proved
in the C3 theorem). -/
def detect_attention_shift (previous_gaze : Option (ℚ × ℚ)) (current_gaze : ℚ × ℚ) :
    Bool × Option (ℚ × ℚ) :=
  match previous_gaze with
  | none => (false, some current_gaze)
  | some prev =>
    let gaze_dist_sq :=
      (current_gaze.1 - prev.1) ^ 2 + (current_gaze.2 - prev.2) ^ 2
    (decide (gaze_dist_sq > 0.15 ^ 2), some current_gaze)

/-- `AutismScreeningModel.detect_gestures` (lines 236-254): finger tip
strictly above `wrist.y - 0.1` (image `y` grows downward). -/
def detect_gestures (hand_landmarks : Option HandObs) : Bool :=
  match hand_landmarks with
  | none => false
  | some h => decide (h.tip_y < h.wrist_y - 0.1)

/-- `AutismScreeningModel.calculate_social_gaze` (lines 256-277). -/
def calculate_social_gaze (face_landmarks : Option IrisObs) : Bool :=
  match face_landmarks with
  | none => false
  | some o => decide ((o.ly + o.ry) / 2 < 0.55)

/-- Total attention-shift count over a sequence of observed gaze points,
threading the `previous_gaze` state exactly as the per-frame loop of
`process_video` does. -/
def countAttentionShifts (previous_gaze : Option (ℚ × ℚ)) :
    List (ℚ × ℚ) → ℕ
  | [] => 0
  | g :: rest =>
    let r := detect_attention_shift previous_gaze g
    (if r.1 then 1 else 0) + countAttentionShifts r.2 rest

/-- Python `int(q)`: truncation toward zero. -/
def pyInt (q : ℚ) : ℤ :=
  if 0 ≤ q then ⌊q⌋ else -⌊-q⌋

/-- Python slice `l[:k]` including the negative-`k` case, where the slice
keeps all but the last `-k` elements. -/
def pySliceTo (k : ℤ) (l : List α) : List α :=
  if k < 0 then l.take ((l.length : ℤ) + k).toNat else l.take k.toNat

/-- Python `round` to an integer: round half to even (banker's rounding).
The source rounds binary floats, where decimal ties are modelled faithfully
enough by exact-rational ties; no claim depends on tie behaviour. -/
def pyRoundHalfEven (r : ℚ) : ℤ :=
  let n : ℤ := ⌊r⌋
  let frac : ℚ := r - (n : ℚ)
  if frac > 1/2 then n + 1
  else if frac < 1/2 then n
  else if n % 2 = 0 then n else n + 1

/-- Python `round(x, 1)`. -/
def pyRound1 (x : ℚ) : ℚ :=
  (pyRoundHalfEven (10 * x) : ℚ) / 10

/-- Body of the loop of `calculate_response_latency`: first index (starting
at `idx`) whose mock landmarks pass `detect_eye_contact`, as a latency
`idx / fps`, else the 3.0-second default. -/
def latencyLoop (fps : ℚ) (idx : ℕ) : List IrisObs → ℚ
  | [] => 3
  | o :: rest =>
    if detect_eye_contact (some o) then (idx : ℚ) / fps
    else latencyLoop fps (idx + 1) rest

/-- `AutismScreeningModel.calculate_response_latency` (lines 297-322).  The
`np.random.uniform` mock iris landmarks drawn for each inspected frame are
the explicit list `mock_iris` (one entry per frame of the full sequence; the
loop runs over the Python slice `frames[:int(self.fps * 5)]`). -/
def calculate_response_latency (fps : ℚ) (mock_iris : List IrisObs) : ℚ :=
  latencyLoop fps 0 (pySliceTo (pyInt (fps * 5)) mock_iris)

/-- Attention-shift portion of the per-frame loop of `process_video`
(lines 417-429): frames without a detected face leave the gaze state
untouched; frames with a face feed the gaze midpoint to
`detect_attention_shift`. -/
def attentionShiftLoop (previous_gaze : Option (ℚ × ℚ)) :
    List (Option IrisObs) → ℕ
  | [] => 0
  | none :: rest => attentionShiftLoop previous_gaze rest
  | some o :: rest =>
    let r := detect_attention_shift previous_gaze (gazeOf o)
    (if r.1 then 1 else 0) + attentionShiftLoop r.2 rest

/-- `video_duration_minutes` computation of `process_video` (lines 357-360):
`len(frames) / (self.fps * 60) if self.fps > 0 else 0.0`, then floored to
`1e-6` when `≤ 0`. -/
def videoDurationMinutes (fps : ℚ) (n : ℕ) : ℚ :=
  let d := if fps > 0 then (n : ℚ) / (fps * 60) else 0
  if d ≤ 0 then 1 / 1000000 else d

/-- `AutismScreeningModel.process_video` (lines 338-467) on a fresh model
instance, with the I/O boundary made explicit:
* `frames` is the sampled frame sequence, each frame reduced to its
  detector outcome (`none` = no face detected; `some o` = the two iris
  landmarks, whether located from detected eyes or drawn at random);
* `gestureRand` is the per-frame `np.random.random()` draw of the mock
  hand-detection branch (`self.hands_detector` is always `None`);
* `latencyIris` is the stream of mock iris landmarks drawn inside
  `calculate_response_latency`.
The `ValueError` raised on an empty frame list becomes `Except.error`. -/
def process_video (fps : ℚ) (frames : List (Option IrisObs))
    (gestureRand : ℕ → ℚ) (latencyIris : ℕ → IrisObs) :
    Except String BehavioralMetrics :=
  if frames.length = 0 then
    Except.error "No frames could be extracted from video"
  else
    let n := frames.length
    let video_duration_minutes := videoDurationMinutes fps n
    let eye_contact_frames := frames.countP detect_eye_contact
    let attention_shifts := attentionShiftLoop none frames
    let gestures := (List.range n).countP (fun i => decide (gestureRand i > 0.7))
    let social_gaze_frames := frames.countP calculate_social_gaze
    let response_latency :=
      calculate_response_latency fps ((List.range n).map latencyIris)
    Except.ok
      { eye_contact_duration := pyRound1 ((eye_contact_frames : ℚ) / (n : ℚ) * 100)
        attention_shifts := pyRound1 ((attention_shifts : ℚ) / video_duration_minutes)
        gesture_frequency := pyRound1 ((gestures : ℚ) / video_duration_minutes)
        social_gaze := pyRound1 ((social_gaze_frames : ℚ) / (n : ℚ) * 100)
        response_latency := pyRound1 response_latency }

/-! ## Helper lemmas -/

/-- Running the attention-shift state machine over frames that all carry the
same gaze point never flags a shift once the state holds that point. -/
lemma countAttentionShifts_replicate_same (g : ℚ × ℚ) :
    ∀ n : ℕ, countAttentionShifts (some g) (List.replicate n g) = 0 := by
  intro n
  induction n with
  | zero => rfl
  | succ k ih =>
    simp only [List.replicate_succ, countAttentionShifts, detect_attention_shift]
    have hfalse : ¬ ((g.1 - g.1) ^ 2 + (g.2 - g.2) ^ 2 > (0.15 : ℚ) ^ 2) := by norm_num
    simp [hfalse, ih]
    positivity

/-! ## Claim theorems -/

/-- C9: the five behavioural-indicator category flags of the report are all
emitted as `true` for every metrics value, and the indicator section of any
two metrics values' reports is identical. -/
theorem indicator_flags_constant_true :
    ∀ m : BehavioralMetrics,
      (m.to_dict).behavioral_indicators =
        ⟨true, true, true, true, true⟩ ∧
      ∀ m₂ : BehavioralMetrics,
        (m.to_dict).behavioral_indicators = (m₂.to_dict).behavioral_indicators :=
  fun _ => ⟨rfl, fun _ => rfl⟩

/-- C10: the eye-contact signal is false when no gaze point exists, and with
a gaze point (the midpoint of the two iris landmarks) it is true iff the
midpoint lies strictly inside (0.4, 0.6) × (0.3, 0.7). -/
theorem detect_eye_contact_spec :
    detect_eye_contact none = false ∧
    ∀ o : IrisObs,
      (detect_eye_contact (some o) = true ↔
        (0.4 < (gazeOf o).1 ∧ (gazeOf o).1 < 0.6 ∧
         0.3 < (gazeOf o).2 ∧ (gazeOf o).2 < 0.7)) := by
  refine ⟨rfl, fun o => ?_⟩
  simp [detect_eye_contact, gazeOf, and_assoc]

/-- C2: each report status tag uses strict inequality against the metric's
own baseline, equality falling in the not-exceeding branch:
eye-contact/gesture/social-gaze tag `below_baseline` iff value < baseline,
attention-shifts/response-latency tag `above_baseline` iff value > baseline;
in particular an eye-contact value of exactly 75 (at the default baseline 75)
is tagged `above_baseline`. -/
theorem to_dict_status_spec (m : BehavioralMetrics) :
    ((m.to_dict).objective_signals.eye_contact_duration.status =
      (if m.eye_contact_duration < m.eye_contact_baseline then
        Status.below_baseline else Status.above_baseline) ∧
     ((m.to_dict).objective_signals.eye_contact_duration.status = Status.below_baseline ↔
      m.eye_contact_duration < m.eye_contact_baseline)) ∧
    ((m.to_dict).objective_signals.gesture_frequency.status =
      (if m.gesture_frequency < m.gesture_frequency_baseline then
        Status.below_baseline else Status.above_baseline) ∧
     ((m.to_dict).objective_signals.gesture_frequency.status = Status.below_baseline ↔
      m.gesture_frequency < m.gesture_frequency_baseline)) ∧
    ((m.to_dict).objective_signals.social_gaze.status =
      (if m.social_gaze < m.social_gaze_baseline then
        Status.below_baseline else Status.above_baseline) ∧
     ((m.to_dict).objective_signals.social_gaze.status = Status.below_baseline ↔
      m.social_gaze < m.social_gaze_baseline)) ∧
    ((m.to_dict).objective_signals.attention_shifts.status =
      (if m.attention_shifts > m.attention_shifts_baseline then
        Status.above_baseline else Status.below_baseline) ∧
     ((m.to_dict).objective_signals.attention_shifts.status = Status.above_baseline ↔
      m.attention_shifts > m.attention_shifts_baseline)) ∧
    ((m.to_dict).objective_signals.response_latency.status =
      (if m.response_latency > m.response_latency_baseline then
        Status.above_baseline else Status.below_baseline) ∧
     ((m.to_dict).objective_signals.response_latency.status = Status.above_baseline ↔
      m.response_latency > m.response_latency_baseline)) ∧
    (m.eye_contact_duration = 75 → m.eye_contact_baseline = 75 →
      (m.to_dict).objective_signals.eye_contact_duration.status = Status.above_baseline) := by
  refine ⟨⟨rfl, ?_⟩, ⟨rfl, ?_⟩, ⟨rfl, ?_⟩, ⟨rfl, ?_⟩, ⟨rfl, ?_⟩, ?_⟩
  · by_cases h : m.eye_contact_duration < m.eye_contact_baseline <;>
      simp [BehavioralMetrics.to_dict, h]
  · by_cases h : m.gesture_frequency < m.gesture_frequency_baseline <;>
      simp [BehavioralMetrics.to_dict, h]
  · by_cases h : m.social_gaze < m.social_gaze_baseline <;>
      simp [BehavioralMetrics.to_dict, h]
  · by_cases h : m.attention_shifts > m.attention_shifts_baseline <;>
      simp [BehavioralMetrics.to_dict, h]
  · by_cases h : m.response_latency > m.response_latency_baseline <;>
      simp [BehavioralMetrics.to_dict, h]
  · intro h1 h2
    simp [BehavioralMetrics.to_dict, h1, h2]

/-- C2 witness: a metrics value whose eye-contact duration is exactly 75
(the baseline) is tagged `above_baseline`. -/
theorem to_dict_status_spec_witness :
    ({ eye_contact_duration := 75 } : BehavioralMetrics).to_dict.objective_signals.eye_contact_duration.status
      = Status.above_baseline :=
  (to_dict_status_spec { eye_contact_duration := 75 }).2.2.2.2.2 rfl rfl

/-- C3: with no previous gaze point the attention-shift signal is false and
the previous point is set; with a previous point the signal is true iff the
Euclidean distance to the current point exceeds 0.15 and the previous point
is updated unconditionally; consequently any sequence of identical gaze
points yields a total shift count of 0. -/
theorem detect_attention_shift_spec :
    (∀ g : ℚ × ℚ, detect_attention_shift none g = (false, some g)) ∧
    (∀ p g : ℚ × ℚ,
      ((detect_attention_shift (some p) g).1 = true ↔
        (0.15 : ℝ) < Real.sqrt (((g.1 - p.1 : ℚ) : ℝ) ^ 2 + ((g.2 - p.2 : ℚ) : ℝ) ^ 2)) ∧
      (detect_attention_shift (some p) g).2 = some g) ∧
    (∀ (g : ℚ × ℚ) (n : ℕ), countAttentionShifts none (List.replicate n g) = 0) := by
  refine ⟨fun g => rfl, fun p g => ⟨?_, rfl⟩, fun g n => ?_⟩
  · have hnn : (0 : ℝ) ≤ ((g.1 - p.1 : ℚ) : ℝ) ^ 2 + ((g.2 - p.2 : ℚ) : ℝ) ^ 2 := by
      positivity
    have hsqrt := Real.lt_sqrt (x := (0.15 : ℝ))
      (y := ((g.1 - p.1 : ℚ) : ℝ) ^ 2 + ((g.2 - p.2 : ℚ) : ℝ) ^ 2) (by norm_num)
    simp only [detect_attention_shift, decide_eq_true_eq, gt_iff_lt]
    rw [hsqrt]
    constructor
    · intro h
      have := (Rat.cast_lt (K := ℝ)).mpr h
      push_cast at this ⊢
      norm_num at this ⊢
      linarith
    · intro h
      have : ((0.15 : ℚ) ^ 2 : ℝ) < (((g.1 - p.1) ^ 2 + (g.2 - p.2) ^ 2 : ℚ) : ℝ) := by
        push_cast
        norm_num at h ⊢
        linarith
      exact_mod_cast this
  · cases n with
    | zero => rfl
    | succ k =>
      simp only [List.replicate_succ, countAttentionShifts, detect_attention_shift]
      simpa using countAttentionShifts_replicate_same g k

/-- C1: with the model's baselines (the dataclass defaults, carried by every
metrics value the pipeline produces), the risk score counts exactly the five
boolean factors (eye < 75, attention > 8·1.3, gesture < 6·0.7, social < 60,
latency > 1.5·1.5), sets `risk_percentage = 100·k/5` and classifies by the
fixed thresholds with fixed confidences; in particular 3 of 5 factors gives
High with 0.80 and 2 of 5 gives Medium with 0.75. -/
theorem calculate_risk_score_spec (m : BehavioralMetrics)
    (h1 : m.eye_contact_baseline = 75) (h2 : m.attention_shifts_baseline = 8)
    (h3 : m.gesture_frequency_baseline = 6) (h4 : m.social_gaze_baseline = 60)
    (h5 : m.response_latency_baseline = 3/2) :
    riskFactorCount m =
      ((if m.eye_contact_duration < 75 then 1 else 0) +
       (if m.attention_shifts > 8 * 1.3 then 1 else 0) +
       (if m.gesture_frequency < 6 * 0.7 then 1 else 0) +
       (if m.social_gaze < 60 then 1 else 0) +
       (if m.response_latency > 3/2 * 1.5 then 1 else 0)) ∧
    m.calculate_risk_score =
      (if ((riskFactorCount m : ℚ) / 5) * 100 < 30 then ("Low Risk", 0.85)
       else if ((riskFactorCount m : ℚ) / 5) * 100 < 60 then ("Medium Risk", 0.75)
       else ("High Risk", 0.80)) ∧
    (riskFactorCount m = 3 → m.calculate_risk_score = ("High Risk", 0.80)) ∧
    (riskFactorCount m = 2 → m.calculate_risk_score = ("Medium Risk", 0.75)) := by
  have hcount : riskFactorCount m =
      ((if m.eye_contact_duration < 75 then 1 else 0) +
       (if m.attention_shifts > 8 * 1.3 then 1 else 0) +
       (if m.gesture_frequency < 6 * 0.7 then 1 else 0) +
       (if m.social_gaze < 60 then 1 else 0) +
       (if m.response_latency > 3/2 * 1.5 then 1 else 0)) := by
    simp only [riskFactorCount, h1, h2, h3, h4, h5, List.count_cons, List.count_nil]
    by_cases c1 : m.eye_contact_duration < 75 <;>
      by_cases c2 : m.attention_shifts > 8 * 1.3 <;>
      by_cases c3 : m.gesture_frequency < 6 * 0.7 <;>
      by_cases c4 : m.social_gaze < 60 <;>
      by_cases c5 : m.response_latency > 3/2 * 1.5 <;>
      simp [c1, c2, c3, c4, c5]
  have hscore : m.calculate_risk_score =
      (if ((riskFactorCount m : ℚ) / 5) * 100 < 30 then ("Low Risk", 0.85)
       else if ((riskFactorCount m : ℚ) / 5) * 100 < 60 then ("Medium Risk", 0.75)
       else ("High Risk", 0.80)) := by
    rw [hcount]
    simp only [BehavioralMetrics.calculate_risk_score, h1, h2, h3, h4, h5]
    by_cases c1 : m.eye_contact_duration < 75 <;>
      by_cases c2 : m.attention_shifts > 8 * 1.3 <;>
      by_cases c3 : m.gesture_frequency < 6 * 0.7 <;>
      by_cases c4 : m.social_gaze < 60 <;>
      by_cases c5 : m.response_latency > 3/2 * 1.5 <;>
      simp only [c1, c2, c3, c4, c5, if_true, if_false, ite_true, ite_false,
        not_false_eq_true, not_true_eq_false] <;>
      norm_num
  refine ⟨hcount, hscore, fun h3count => ?_, fun h2count => ?_⟩
  · rw [hscore, h3count]
    norm_num
  · rw [hscore, h2count]
    norm_num

/-- C1 witness: the all-default metrics value has exactly 3 true risk
factors and scores High Risk with confidence 0.80, and a value with exactly
2 true factors scores Medium Risk with confidence 0.75. -/
theorem calculate_risk_score_spec_witness :
    riskFactorCount ({} : BehavioralMetrics) = 3 ∧
    ({} : BehavioralMetrics).calculate_risk_score = ("High Risk", 0.80) ∧
    riskFactorCount ({ eye_contact_duration := 80 } : BehavioralMetrics) = 2 ∧
    ({ eye_contact_duration := 80 } : BehavioralMetrics).calculate_risk_score
      = ("Medium Risk", 0.75) :=
  ⟨by norm_num [riskFactorCount],
   (calculate_risk_score_spec {} rfl rfl rfl rfl rfl).2.2.1
     (by norm_num [riskFactorCount]),
   by norm_num [riskFactorCount],
   (calculate_risk_score_spec { eye_contact_duration := 80 }
      rfl rfl rfl rfl rfl).2.2.2 (by norm_num [riskFactorCount])⟩

/-- Unfolding of `process_video` on a nonempty frame list. -/
lemma process_video_eq (fps : ℚ) (frames : List (Option IrisObs))
    (gestureRand : ℕ → ℚ) (latencyIris : ℕ → IrisObs)
    (hne : frames.length ≠ 0) :
    process_video fps frames gestureRand latencyIris = Except.ok
      { eye_contact_duration :=
          pyRound1 ((frames.countP detect_eye_contact : ℚ) / (frames.length : ℚ) * 100)
        attention_shifts :=
          pyRound1 ((attentionShiftLoop none frames : ℚ) /
            videoDurationMinutes fps frames.length)
        gesture_frequency :=
          pyRound1 ((((List.range frames.length).countP
              fun i => decide (gestureRand i > 0.7)) : ℚ) /
            videoDurationMinutes fps frames.length)
        social_gaze :=
          pyRound1 ((frames.countP calculate_social_gaze : ℚ) / (frames.length : ℚ) * 100)
        response_latency :=
          pyRound1 (calculate_response_latency fps
            ((List.range frames.length).map latencyIris)) } := by
  unfold process_video
  rw [if_neg hne]

/-- C6: a video with zero sampled frames makes the pipeline fail with the
empty-input error (the spec's `EmptyInputError`, raised in the source as
`ValueError("No frames could be extracted from video")`) and produce no
metrics, while every nonzero frame count produces a metrics value and never
takes the error branch. -/
theorem process_video_empty_input (fps : ℚ) (frames : List (Option IrisObs))
    (gestureRand : ℕ → ℚ) (latencyIris : ℕ → IrisObs) :
    (frames.length = 0 →
      process_video fps frames gestureRand latencyIris =
        Except.error "No frames could be extracted from video") ∧
    (frames.length ≠ 0 →
      ∃ m : BehavioralMetrics,
        process_video fps frames gestureRand latencyIris = Except.ok m) := by
  constructor
  · intro h
    unfold process_video
    rw [if_pos h]
  · intro h
    exact ⟨_, process_video_eq fps frames gestureRand latencyIris h⟩

/-- C6 witness: the empty frame list yields the empty-input error and a
one-frame list yields a metrics value. -/
theorem process_video_empty_input_witness :
    process_video 30 [] (fun _ => 0) (fun _ => ⟨0, 0, 0, 0⟩) =
      Except.error "No frames could be extracted from video" ∧
    ∃ m : BehavioralMetrics,
      process_video 30 [none] (fun _ => 0) (fun _ => ⟨0, 0, 0, 0⟩) = Except.ok m :=
  ⟨(process_video_empty_input 30 [] (fun _ => 0) (fun _ => ⟨0, 0, 0, 0⟩)).1 rfl,
   (process_video_empty_input 30 [none] (fun _ => 0) (fun _ => ⟨0, 0, 0, 0⟩)).2
     (by simp)⟩

/-- The epsilon-floored duration divisor is strictly positive for every
`fps` (including `fps = 0` and `fps < 0`) and every frame count. -/
lemma videoDurationMinutes_pos (fps : ℚ) (n : ℕ) :
    0 < videoDurationMinutes fps n := by
  simp only [videoDurationMinutes]
  by_cases hf : fps > 0
  · simp only [if_pos hf]
    by_cases hd : (n : ℚ) / (fps * 60) ≤ 0
    · rw [if_pos hd]; norm_num
    · rw [if_neg hd]; exact lt_of_not_le hd
  · simp only [if_neg hf]
    rw [if_pos le_rfl]; norm_num

/-- C7: for every frame count ≥ 1 and every `fps` (including 0 and negative
values) the rate divisor `video_duration_minutes` is strictly positive, and
the produced attention-shift and gesture rates are exactly the event counts
divided by that strictly positive divisor (then rounded), so the rate
computation never divides by zero and its results are finite rationals. -/
theorem rate_divisor_positive (fps : ℚ) (frames : List (Option IrisObs))
    (gestureRand : ℕ → ℚ) (latencyIris : ℕ → IrisObs)
    (h : 1 ≤ frames.length) :
    0 < videoDurationMinutes fps frames.length ∧
    ∃ m : BehavioralMetrics,
      process_video fps frames gestureRand latencyIris = Except.ok m ∧
      m.attention_shifts =
        pyRound1 ((attentionShiftLoop none frames : ℚ) /
          videoDurationMinutes fps frames.length) ∧
      m.gesture_frequency =
        pyRound1 ((((List.range frames.length).countP
            fun i => decide (gestureRand i > 0.7)) : ℚ) /
          videoDurationMinutes fps frames.length) := by
  have hpv := process_video_eq fps frames gestureRand latencyIris (by omega)
  exact ⟨videoDurationMinutes_pos fps frames.length, _, hpv, rfl, rfl⟩

/-- C7 witness: the spec's `fps = 0` scenario on a one-frame video, where
the divisor floors to the epsilon `1e-6` and stays positive. -/
theorem rate_divisor_positive_witness :
    0 < videoDurationMinutes 0 ([none] : List (Option IrisObs)).length ∧
    ∃ m : BehavioralMetrics,
      process_video 0 [none] (fun _ => 0) (fun _ => ⟨0, 0, 0, 0⟩) = Except.ok m ∧
      m.attention_shifts =
        pyRound1 ((attentionShiftLoop none ([none] : List (Option IrisObs)) : ℚ) /
          videoDurationMinutes 0 ([none] : List (Option IrisObs)).length) ∧
      m.gesture_frequency =
        pyRound1 ((((List.range ([none] : List (Option IrisObs)).length).countP
            fun i => decide ((fun _ : ℕ => (0 : ℚ)) i > 0.7)) : ℚ) /
          videoDurationMinutes 0 ([none] : List (Option IrisObs)).length) :=
  rate_divisor_positive 0 [none] (fun _ => 0) (fun _ => ⟨0, 0, 0, 0⟩) (by simp)

/-- Rounding a nonnegative argument is nonnegative. -/
lemma pyRoundHalfEven_nonneg {r : ℚ} (h : 0 ≤ r) : 0 ≤ pyRoundHalfEven r := by
  have hn : (0 : ℤ) ≤ ⌊r⌋ := Int.floor_nonneg.mpr h
  simp only [pyRoundHalfEven]
  split_ifs <;> omega

/-- Rounding never overshoots an integer upper bound of the argument. -/
lemma pyRoundHalfEven_le_of_le {r : ℚ} {B : ℤ} (h : r ≤ (B : ℚ)) :
    pyRoundHalfEven r ≤ B := by
  have hfl : ⌊r⌋ ≤ B := by
    have := Int.floor_le_floor h
    simpa using this
  have hlow : (⌊r⌋ : ℚ) ≤ r := Int.floor_le r
  simp only [pyRoundHalfEven]
  split_ifs with h1 h2 h3
  · have hlt : (⌊r⌋ : ℚ) < (B : ℚ) := by linarith
    have : ⌊r⌋ < B := by exact_mod_cast hlt
    omega
  · exact hfl
  · exact hfl
  · have heq : r - (⌊r⌋ : ℚ) = 1/2 := le_antisymm (not_lt.mp h1) (not_lt.mp h2)
    have hlt : (⌊r⌋ : ℚ) < (B : ℚ) := by linarith
    have : ⌊r⌋ < B := by exact_mod_cast hlt
    omega

/-- `round(x, 1)` of a nonnegative value is nonnegative. -/
lemma pyRound1_nonneg {x : ℚ} (h : 0 ≤ x) : 0 ≤ pyRound1 x := by
  have h10 : (0 : ℚ) ≤ 10 * x := by linarith
  have := pyRoundHalfEven_nonneg h10
  unfold pyRound1
  positivity

/-- `round(x, 1)` of a value at most 100 is at most 100. -/
lemma pyRound1_le_hundred {x : ℚ} (h : x ≤ 100) : pyRound1 x ≤ 100 := by
  have h10 : (10 : ℚ) * x ≤ ((1000 : ℤ) : ℚ) := by push_cast; linarith
  have hle := pyRoundHalfEven_le_of_le h10
  unfold pyRound1
  rw [div_le_iff₀ (by norm_num : (0 : ℚ) < 10)]
  calc (pyRoundHalfEven (10 * x) : ℚ) ≤ ((1000 : ℤ) : ℚ) := by exact_mod_cast hle
    _ = 100 * 10 := by norm_num

/-- The latency loop never returns a negative value when `fps ≥ 0`. -/
lemma latencyLoop_nonneg {fps : ℚ} (h : 0 ≤ fps) (l : List IrisObs) :
    ∀ idx : ℕ, 0 ≤ latencyLoop fps idx l := by
  induction l with
  | nil => intro idx; norm_num [latencyLoop]
  | cons o rest ih =>
    intro idx
    simp only [latencyLoop]
    split_ifs
    · exact div_nonneg (by positivity) h
    · exact ih (idx + 1)

/-- `calculate_response_latency` is nonnegative whenever `fps ≥ 0`. -/
lemma calculate_response_latency_nonneg {fps : ℚ} (h : 0 ≤ fps)
    (l : List IrisObs) : 0 ≤ calculate_response_latency fps l :=
  latencyLoop_nonneg h _ 0

/-- A percentage `100 · c / n` with `c ≤ n` and `n ≥ 1` lies in `[0, 100]`. -/
lemma percent_bounds {c n : ℕ} (hc : c ≤ n) (hn : 1 ≤ n) :
    0 ≤ ((c : ℚ) / (n : ℚ)) * 100 ∧ ((c : ℚ) / (n : ℚ)) * 100 ≤ 100 := by
  have hn0 : (0 : ℚ) < (n : ℚ) := by exact_mod_cast hn
  refine ⟨by positivity, ?_⟩
  have h1 : (c : ℚ) / (n : ℚ) ≤ 1 := (div_le_one hn0).mpr (by exact_mod_cast hc)
  linarith

/-- C8 (amended: for `fps ≥ 0`): every metrics value the pipeline produces
has its two percentage metrics in `[0, 100]` (each is 100 times a flagged
count divided by the frame count, and the flagged count never exceeds the
frame count), and its two rate metrics and the response latency are all
nonnegative. -/
theorem metrics_bounds (fps : ℚ) (frames : List (Option IrisObs))
    (gestureRand : ℕ → ℚ) (latencyIris : ℕ → IrisObs) (m : BehavioralMetrics)
    (hfps : 0 ≤ fps) (hn : 1 ≤ frames.length)
    (hm : process_video fps frames gestureRand latencyIris = Except.ok m) :
    (0 ≤ m.eye_contact_duration ∧ m.eye_contact_duration ≤ 100) ∧
    (0 ≤ m.social_gaze ∧ m.social_gaze ≤ 100) ∧
    0 ≤ m.attention_shifts ∧ 0 ≤ m.gesture_frequency ∧ 0 ≤ m.response_latency := by
  rw [process_video_eq fps frames gestureRand latencyIris (by omega)] at hm
  injection hm with hrec
  subst hrec
  have hdur := videoDurationMinutes_pos fps frames.length
  have heye := percent_bounds (List.countP_le_length detect_eye_contact) hn
  have hsoc := percent_bounds (List.countP_le_length calculate_social_gaze) hn
  refine ⟨⟨pyRound1_nonneg heye.1, pyRound1_le_hundred heye.2⟩,
    ⟨pyRound1_nonneg hsoc.1, pyRound1_le_hundred hsoc.2⟩, ?_, ?_, ?_⟩
  · exact pyRound1_nonneg (div_nonneg (by positivity) (le_of_lt hdur))
  · exact pyRound1_nonneg (div_nonneg (by positivity) (le_of_lt hdur))
  · exact pyRound1_nonneg (calculate_response_latency_nonneg hfps _)

/-- The latency loop returns the 3-second default when no inspected frame
passes the eye-contact test. -/
lemma latencyLoop_eq_default {fps : ℚ} (l : List IrisObs)
    (h : ∀ i : ℕ, detect_eye_contact l[i]? = false) :
    ∀ idx : ℕ, latencyLoop fps idx l = 3 := by
  induction l with
  | nil => intro idx; rfl
  | cons o rest ih =>
    intro idx
    have h0 := h 0
    simp only [List.getElem?_cons_zero] at h0
    simp only [latencyLoop, h0]
    exact ih (fun i => by simpa using h (i + 1)) (idx + 1)

/-- The latency loop returns `(idx + i) / fps` when frame `i` is the first
one passing the eye-contact test. -/
lemma latencyLoop_first_true (fps : ℚ) (l : List IrisObs) :
    ∀ (idx i : ℕ), detect_eye_contact l[i]? = true →
      (∀ j : ℕ, j < i → detect_eye_contact l[j]? = false) →
      latencyLoop fps idx l = ((idx + i : ℕ) : ℚ) / fps := by
  induction l with
  | nil =>
    intro idx i htrue _
    simp [detect_eye_contact] at htrue
  | cons o rest ih =>
    intro idx i htrue hprev
    cases i with
    | zero =>
      simp only [List.getElem?_cons_zero] at htrue
      simp only [latencyLoop, htrue, if_true, Nat.add_zero]
    | succ k =>
      have h0 := hprev 0 (Nat.succ_pos k)
      simp only [List.getElem?_cons_zero] at h0
      simp only [List.getElem?_cons_succ] at htrue
      have hrec := ih (idx + 1) k htrue
        (fun j hj => by simpa using hprev (j + 1) (by omega))
      simp only [latencyLoop, h0]
      rw [hrec]
      push_cast
      ring_nf

/-- C5 (amended: the window is empty exactly when `fps = 0`; for `fps < 0`
the Python slice `frames[:int(fps*5)]` keeps all but the trailing frames, so
the default need not apply): for `fps ≥ 0` the response latency is `i / fps`
for the first frame index `i` inside the `int(fps·5)`-frame window whose
mock landmarks pass the eye-contact test, and 3.0 when no window frame
passes (in particular always 3.0 when `fps = 0`). -/
theorem response_latency_spec (fps : ℚ) (mock : List IrisObs) (hfps : 0 ≤ fps) :
    (fps = 0 → calculate_response_latency fps mock = 3) ∧
    ((∀ i : ℕ, i < (⌊fps * 5⌋).toNat → detect_eye_contact mock[i]? = false) →
      calculate_response_latency fps mock = 3) ∧
    (∀ i : ℕ, i < (⌊fps * 5⌋).toNat → detect_eye_contact mock[i]? = true →
      (∀ j : ℕ, j < i → detect_eye_contact mock[j]? = false) →
      calculate_response_latency fps mock = (i : ℚ) / fps) := by
  have h5 : (0 : ℚ) ≤ fps * 5 := by linarith
  have hcore : calculate_response_latency fps mock =
      latencyLoop fps 0 (mock.take (⌊fps * 5⌋).toNat) := by
    unfold calculate_response_latency pyInt pySliceTo
    rw [if_pos h5, if_neg (not_lt.mpr (Int.floor_nonneg.mpr h5))]
  refine ⟨?_, ?_, ?_⟩
  · intro h0
    subst h0
    rw [hcore]
    norm_num
    rfl
  · intro hall
    rw [hcore]
    refine latencyLoop_eq_default _ (fun i => ?_) 0
    rw [List.getElem?_take]
    split_ifs with hi
    · exact hall i hi
    · rfl
  · intro i hi htrue hprev
    rw [hcore]
    have h1 : (mock.take (⌊fps * 5⌋).toNat)[i]? = mock[i]? := by
      rw [List.getElem?_take, if_pos hi]
    have h2 : ∀ j : ℕ, j < i →
        detect_eye_contact (mock.take (⌊fps * 5⌋).toNat)[j]? = false := by
      intro j hj
      rw [List.getElem?_take, if_pos (lt_trans hj hi)]
      exact hprev j hj
    have := latencyLoop_first_true fps (mock.take (⌊fps * 5⌋).toNat) 0 i
      (h1 ▸ htrue) h2
    simpa using this

section
attribute [local semireducible] Rat.mul Rat.inv Rat.add Rat.sub Rat.ofScientific

/-- C5 witness: at `fps = 30`, when frame 0 fails and frame 1 passes the
eye-contact test, the response latency is `1/30` seconds. -/
theorem response_latency_spec_witness :
    calculate_response_latency 30 [⟨0, 0, 0, 0⟩, ⟨1/2, 1/2, 1/2, 1/2⟩] = (1 : ℚ) / 30 :=
  (response_latency_spec 30 [⟨0, 0, 0, 0⟩, ⟨1/2, 1/2, 1/2, 1/2⟩] (by norm_num)).2.2 1
    (by decide) (by decide)
    (fun j hj => by interval_cases j; decide)

/-- C5 counterexample: at `fps = -1` with 7 frames, `frames[:int(fps*5)]`
is the Python negative slice keeping the first two frames, and a passing
frame at index 1 makes the latency `1 / (-1) = -1`, not the 3.0 the claim
requires for `fps ≤ 0`. -/
theorem response_latency_negative_fps_example :
    calculate_response_latency (-1)
      [⟨0, 0, 0, 0⟩, ⟨1/2, 1/2, 1/2, 1/2⟩, ⟨0, 0, 0, 0⟩, ⟨0, 0, 0, 0⟩,
       ⟨0, 0, 0, 0⟩, ⟨0, 0, 0, 0⟩, ⟨0, 0, 0, 0⟩] = -1 ∧ (-1 : ℚ) ≠ 3 := by
  refine ⟨by decide, by norm_num⟩

/-- C4: the production pipeline's gesture count is a function of the mock
random stream and not of the detector output: two runs over the identical
one-frame detector-output sequence (and identical latency stream), differing
only in the `np.random.random()` draws, report gesture frequencies 1800 and
0 respectively. -/
theorem gesture_count_depends_on_random_stream :
    (process_video 30 [some ⟨1/2, 1/2, 1/2, 1/2⟩] (fun _ => 1)
        (fun _ => ⟨0, 0, 0, 0⟩)).toOption.map (fun m => m.gesture_frequency) =
      some 1800 ∧
    (process_video 30 [some ⟨1/2, 1/2, 1/2, 1/2⟩] (fun _ => 0)
        (fun _ => ⟨0, 0, 0, 0⟩)).toOption.map (fun m => m.gesture_frequency) =
      some 0 ∧
    (1800 : ℚ) ≠ 0 := by
  refine ⟨by decide, by decide, by norm_num⟩

/-- C8 witness: a one-frame video at `fps = 30` with a centered gaze and no
gesture draws yields metrics 100 / 0 / 0 / 100 / 3, all within bounds. -/
theorem metrics_bounds_witness :
    ((0 : ℚ) ≤ 100 ∧ (100 : ℚ) ≤ 100) ∧ ((0 : ℚ) ≤ 100 ∧ (100 : ℚ) ≤ 100) ∧
    (0 : ℚ) ≤ 0 ∧ (0 : ℚ) ≤ 0 ∧ (0 : ℚ) ≤ 3 :=
  metrics_bounds 30 [some ⟨1/2, 1/2, 1/2, 1/2⟩] (fun _ => 0) (fun _ => ⟨0, 0, 0, 0⟩)
    { eye_contact_duration := 100, attention_shifts := 0, gesture_frequency := 0,
      social_gaze := 100, response_latency := 3 }
    (by norm_num) (by simp)
    (by
      rw [process_video_eq 30 [some ⟨1/2, 1/2, 1/2, 1/2⟩] (fun _ => 0)
        (fun _ => ⟨0, 0, 0, 0⟩) (by simp)]
      exact congrArg Except.ok (by decide))

/-- C8 counterexample: at `fps = -1` (7 faceless frames, latency mock
passing at index 1) the produced `response_latency` is `-1`, violating the
claimed nonnegativity of all metrics for every processed video. -/
theorem response_latency_negative_example :
    (process_video (-1) (List.replicate 7 none) (fun _ => 0)
        (fun i => if i = 1 then ⟨1/2, 1/2, 1/2, 1/2⟩ else ⟨0, 0, 0, 0⟩)).toOption.map
      (fun m => m.response_latency) = some (-1) ∧ ¬ ((0 : ℚ) ≤ -1) := by
  refine ⟨by decide, by norm_num⟩

end

end AutiCare
